import Mathlib

/-!
Verification of the RuleWorld native FFI shim
(src/MagicWorld/MagicWorld/native_ffi.c) against its specification.

Embedding conventions:
* C `int32_t` values are modelled as `Int` together with the range
  predicate `in32`; two's-complement wraparound of machine arithmetic is
  `toInt32` (reduction into [-2^31, 2^31)).  This is the machine-level
  semantics the spec itself documents for overflow ("wraparound, not an
  error").
* A C string is modelled by the list of its bytes strictly before the
  NUL terminator (`List Nat`, each entry a byte); a nullable `char*` is
  `Option (List Nat)`.  `CStrOk` states that the bytes are valid C-string
  content (non-zero, below 256), so that `strlen` of the buffer is the
  length of the list.
* `malloc` results are modelled by explicit `Bool` parameters saying
  whether each allocation succeeds; a `false` allocation yields NULL.
* The free functions are modelled by the sequence of heap addresses they
  pass to `free`, in call order.
* `time(NULL)` is modelled by an explicit `now : Int` parameter.
-/

/-- Two's-complement reduction of an integer into the `int32_t`
range [-2^31, 2^31). -/
def toInt32 (x : Int) : Int :=
  (x + 2 ^ 31) % 2 ^ 32 - 2 ^ 31

/-- The `int32_t` range predicate. -/
def in32 (x : Int) : Prop :=
  -(2 ^ 31) ≤ x ∧ x < 2 ^ 31

instance (x : Int) : Decidable (in32 x) := by
  unfold in32; infer_instance

/-- Spec-side phrasing: take a value in [0, 2^32) and reinterpret it as a
signed 32-bit integer ("(a+b) mod 2^32 reinterpreted as signed"). -/
def reinterpretSigned (u : Int) : Int :=
  if u < 2 ^ 31 then u else u - 2 ^ 32

/-- Valid C-string content: every byte is non-zero (no interior NUL) and
fits in one byte. -/
def CStrOk (s : List Nat) : Prop :=
  ∀ b ∈ s, 0 < b ∧ b < 256

instance (s : List Nat) : Decidable (CStrOk s) := by
  unfold CStrOk; infer_instance

-- Byte constants for the string literals in native_ffi.c (ASCII codes).
-- "Hello, "
def helloBytes : List Nat := [72, 101, 108, 108, 111, 44, 32]
-- "World"
def worldBytes : List Nat := [87, 111, 114, 108, 100]
-- "!"
def exclBytes : List Nat := [33]
-- "iOS"
def iOSBytes : List Nat := [105, 79, 83]
-- "1.0.0"
def verBytes : List Nat := [49, 46, 48, 46, 48]

/-- `int32_t native_add(int32_t a, int32_t b) { return a + b; }`
(machine semantics: two's-complement wraparound). -/
def native_add (a b : Int) : Int :=
  toInt32 (a + b)

/-- `int32_t native_string_length(const char* str)`: 0 on NULL, else
`(int32_t)strlen(str)` — the byte count before the terminator, cast
(two's-complement) to `int32_t`. -/
def native_string_length : Option (List Nat) → Int
  | none => 0
  | some s => toInt32 s.length

/-- `const char* native_get_greeting(const char* name)`: NULL name is
replaced by "World"; a buffer of exactly
`strlen("Hello, ") + strlen(name) + strlen("!") + 1` bytes is allocated
(so the snprintf of "Hello, %s!" fits exactly, no truncation); if the
allocation fails the still-NULL pointer is returned. -/
def native_get_greeting (name : Option (List Nat)) (allocOk : Bool) :
    Option (List Nat) :=
  let n := name.getD worldBytes
  if allocOk then some (helloBytes ++ n ++ exclBytes) else none

/-- `int32_t native_sum_array(const int32_t* array, int32_t length)`:
0 on NULL array or non-positive length, else the loop
`for (i = 0; i < length; i++) sum += array[i];` with an `int32_t`
accumulator (each addition wraps).  Reading past the end of the buffer
is undefined behaviour; the model is meaningful for
`length ≤ array.length`. -/
def native_sum_array : Option (List Int) → Int → Int
  | none, _ => 0
  | some l, len =>
      if len ≤ 0 then 0
      else (l.take len.toNat).foldl (fun s x => toInt32 (s + x)) 0

/-- `void native_free_string(char* str)`: the addresses passed to `free`,
in order (nothing on NULL). -/
def native_free_string : Option Nat → List Nat
  | none => []
  | some a => [a]

/-- The pointer layout of a live `SystemInfo*`: the address of the record
itself and the (nullable) addresses held in its `platform` and `version`
fields. -/
structure SystemInfoPtr where
  addr : Nat
  platform : Option Nat
  version : Option Nat
deriving DecidableEq

/-- `void native_free_system_info(SystemInfo* info)`: the addresses
passed to `free`, in order — nothing on NULL; otherwise `info->platform`
(if non-NULL), then `info->version` (if non-NULL), then the record. -/
def native_free_system_info : Option SystemInfoPtr → List Nat
  | none => []
  | some info => info.platform.toList ++ info.version.toList ++ [info.addr]

/-- The contents of a successfully constructed `SystemInfo` record. -/
structure SystemInfoVal where
  platform : List Nat
  version : List Nat
  timestamp : Int
deriving DecidableEq

/-- Possible outcomes of `native_get_system_info`: a NULL return, an
undefined-behaviour `strcpy` into a NULL destination, or a populated
record. -/
inductive SysInfoOutcome where
  | nullRet : SysInfoOutcome
  | nullWrite : SysInfoOutcome
  | ok : SystemInfoVal → SysInfoOutcome
deriving DecidableEq

/-- `SystemInfo* native_get_system_info(void)`:
`malloc(sizeof(SystemInfo))` checked (NULL return on failure); then
`malloc(4)` + `strcpy(platform, "iOS")` UNCHECKED (4 bytes hold "iOS"
plus NUL exactly); then `malloc(6)` + `strcpy(version, "1.0.0")`
UNCHECKED (6 bytes exactly); then `info->timestamp = time(NULL)`.
An unchecked allocation failing makes the strcpy write through NULL. -/
def native_get_system_info (allocInfo allocPlat allocVer : Bool)
    (now : Int) : SysInfoOutcome :=
  if !allocInfo then .nullRet
  else if !allocPlat then .nullWrite
  else if !allocVer then .nullWrite
  else .ok ⟨iOSBytes, verBytes, now⟩

-- Spec-side literal byte strings used to check greeting output.
-- "Hello, World!"
def helloWorldLit : List Nat :=
  [72, 101, 108, 108, 111, 44, 32, 87, 111, 114, 108, 100, 33]
-- "Ada"
def adaBytes : List Nat := [65, 100, 97]
-- "Hello, Ada!"
def helloAdaLit : List Nat := [72, 101, 108, 108, 111, 44, 32, 65, 100, 97, 33]

/-- The record a fully successful native_get_system_info call at time 7
produces. -/
def sysInfoSample : SystemInfoVal := ⟨iOSBytes, verBytes, 7⟩

-- Basic arithmetic lemmas about the wraparound model.

theorem toInt32_add_left (a b : Int) :
    toInt32 (toInt32 a + b) = toInt32 (a + b) := by
  unfold toInt32
  omega

theorem toInt32_in32 (x : Int) : in32 (toInt32 x) := by
  unfold toInt32 in32
  omega

theorem toInt32_eq_reinterpret (x : Int) :
    toInt32 x = reinterpretSigned (x % 2 ^ 32) := by
  unfold toInt32 reinterpretSigned
  split <;> omega

theorem toInt32_eq_self (x : Int) (h : in32 x) : toInt32 x = x := by
  unfold toInt32
  unfold in32 at h
  omega

theorem foldl_wrap (l : List Int) (init : Int) :
    l.foldl (fun s x => toInt32 (s + x)) (toInt32 init)
      = toInt32 (init + l.sum) := by
  induction l generalizing init with
  | nil => simp
  | cons x xs ih =>
      simp only [List.foldl_cons, List.sum_cons]
      rw [toInt32_add_left, ih]
      ring_nf

theorem sum_wrap (l : List Int) :
    l.foldl (fun s x => toInt32 (s + x)) 0 = toInt32 l.sum := by
  have h0 : toInt32 0 = 0 := by unfold toInt32; decide
  calc l.foldl (fun s x => toInt32 (s + x)) 0
      = l.foldl (fun s x => toInt32 (s + x)) (toInt32 0) := by rw [h0]
    _ = toInt32 (0 + l.sum) := foldl_wrap l 0
    _ = toInt32 l.sum := by rw [Int.zero_add]

/-- C1: native_get_system_info returns NULL iff the initial record
allocation fails, and when the record allocates, a failing nested
allocation makes the strcpy write through a NULL destination (the nested
allocations are unchecked). -/
theorem C1_getSystemInfo_null_iff_nullWrite_reachable :
    (∀ ai ap av : Bool, ∀ now : Int,
        (native_get_system_info ai ap av now = .nullRet ↔ ai = false))
    ∧ (∃ ap av : Bool, ∃ now : Int,
        native_get_system_info true ap av now = .nullWrite) := by
  constructor
  · intro ai ap av now
    cases ai <;> cases ap <;> cases av <;> simp [native_get_system_info]
  · exact ⟨false, true, 0, rfl⟩

/-- C2: for all int32 a, b, native_add returns (a + b) mod 2^32
reinterpreted as a signed 32-bit integer; the result is again an int32
(wraparound, never an error). -/
theorem C2_add_wraparound (a b : Int) (_ha : in32 a) (_hb : in32 b) :
    native_add a b = reinterpretSigned ((a + b) % 2 ^ 32)
      ∧ in32 (native_add a b) := by
  unfold native_add
  exact ⟨toInt32_eq_reinterpret (a + b), toInt32_in32 (a + b)⟩

/-- C2 witness: INT32_MAX + 1 wraps. -/
theorem C2_add_wraparound_witness :
    native_add 2147483647 1 = reinterpretSigned ((2147483647 + 1) % 2 ^ 32)
      ∧ in32 (native_add 2147483647 1) :=
  C2_add_wraparound 2147483647 1 (by decide) (by decide)

/-- C5: native_get_greeting returns NULL iff the allocation of the
result buffer fails, for every input (null name or not). -/
theorem C5_greeting_null_iff_alloc_fails :
    ∀ (name : Option (List Nat)) (allocOk : Bool),
      (native_get_greeting name allocOk = none ↔ allocOk = false) := by
  intro name allocOk
  cases allocOk <;> simp [native_get_greeting]

/-- C4: when allocation succeeds, native_get_greeting(NULL) is exactly
"Hello, World!", and for every name it is "Hello, " ++ name ++ "!"
(for example "Ada" gives "Hello, Ada!"). -/
theorem C4_greeting_content :
    native_get_greeting none true = some helloWorldLit
    ∧ (∀ name : List Nat, CStrOk name →
        native_get_greeting (some name) true
          = some (helloBytes ++ name ++ exclBytes))
    ∧ native_get_greeting (some adaBytes) true = some helloAdaLit := by
  refine ⟨by decide, ?_, by decide⟩
  intro name h
  rfl

/-- C4 witness: the general form applied at the name "World". -/
theorem C4_greeting_content_witness :
    CStrOk worldBytes
    ∧ native_get_greeting (some worldBytes) true
        = some (helloBytes ++ worldBytes ++ exclBytes) :=
  ⟨by decide, C4_greeting_content.2.1 worldBytes (by decide)⟩

/-- C7: every successful native_get_system_info call yields the fixed
non-empty platform "iOS" and version "1.0.0" (the same constants on
every call) and a timestamp equal to the wall-clock time of the call. -/
theorem C7_getSystemInfo_ok_content (ai ap av : Bool) (now : Int)
    (i : SystemInfoVal)
    (h : native_get_system_info ai ap av now = .ok i) :
    i.platform = iOSBytes ∧ i.platform ≠ []
    ∧ i.version = verBytes ∧ i.version ≠ []
    ∧ i.timestamp = now := by
  cases ai <;> cases ap <;> cases av <;>
    simp [native_get_system_info] at h
  subst h
  refine ⟨rfl, ?_, rfl, ?_, rfl⟩
  · show iOSBytes ≠ []
    decide
  · show verBytes ≠ []
    decide

/-- C7 witness: a concrete successful call at time 7. -/
theorem C7_getSystemInfo_ok_content_witness :
    native_get_system_info true true true 7 = .ok sysInfoSample
    ∧ (sysInfoSample.platform = iOSBytes
      ∧ sysInfoSample.platform ≠ []
      ∧ sysInfoSample.version = verBytes
      ∧ sysInfoSample.version ≠ []
      ∧ sysInfoSample.timestamp = 7) :=
  ⟨rfl, C7_getSystemInfo_ok_content true true true 7 sysInfoSample rfl⟩

/-- C8: the free functions pass nothing to free on a NULL argument, and
native_free_system_info on a non-NULL record frees the nested platform
and version buffers (each only when non-NULL) before the record itself.
-/
theorem C8_free_noop_on_null_and_order :
    native_free_string none = []
    ∧ native_free_system_info none = []
    ∧ (∀ a : Nat, native_free_string (some a) = [a])
    ∧ (∀ (a : Nat) (p v : Option Nat),
        native_free_system_info (some ⟨a, p, v⟩)
          = p.toList ++ v.toList ++ [a]) :=
  ⟨rfl, rfl, fun _ => rfl, fun _ _ _ => rfl⟩

/-- C3 counterexample: sumArray does NOT always return the arithmetic
sum of the first `length` elements — at [INT32_MAX, 1] with length 2 the
int32 accumulator wraps to -2^31, not the arithmetic sum 2^31. -/
theorem C3_sumArray_arith_cex :
    native_sum_array (some [2147483647, 1]) 2 ≠ 2147483647 + 1 := by
  decide

/-- C3 (amended): sumArray returns 0 on a NULL array or a non-positive
length; otherwise (length within bounds) it returns the arithmetic sum
of the first `length` elements reduced mod 2^32 and reinterpreted as a
signed 32-bit integer — which equals the arithmetic sum exactly when
that sum fits in int32. -/
theorem C3_sumArray_amended :
    (∀ n : Int, native_sum_array none n = 0)
    ∧ (∀ (l : List Int) (n : Int), n ≤ 0 → native_sum_array (some l) n = 0)
    ∧ (∀ (l : List Int) (n : Int), 0 < n → n ≤ (l.length : Int) →
        native_sum_array (some l) n
          = reinterpretSigned ((l.take n.toNat).sum % 2 ^ 32)
        ∧ (in32 ((l.take n.toNat).sum) →
            native_sum_array (some l) n = (l.take n.toNat).sum)) := by
  refine ⟨fun n => rfl, ?_, ?_⟩
  · intro l n h
    simp [native_sum_array, h]
  · intro l n h0 hlen
    have hne : ¬ n ≤ 0 := by omega
    have hval : native_sum_array (some l) n
        = toInt32 ((l.take n.toNat).sum) := by
      simp only [native_sum_array, if_neg hne]
      exact sum_wrap (l.take n.toNat)
    constructor
    · rw [hval, toInt32_eq_reinterpret]
    · intro hin
      rw [hval, toInt32_eq_self _ hin]

/-- C3 witness: the spec example sumArray([1,2,3], 3) = 6 through the
amended theorem. -/
theorem C3_sumArray_amended_witness :
    in32 ((([1, 2, 3] : List Int).take (3 : Int).toNat).sum)
    ∧ native_sum_array (some [1, 2, 3]) 3
        = (([1, 2, 3] : List Int).take (3 : Int).toNat).sum
    ∧ native_sum_array (some [1, 2, 3]) 3 = 6 :=
  ⟨by decide,
   (C3_sumArray_amended.2.2 [1, 2, 3] 3 (by decide) (by decide)).2 (by decide),
   by decide⟩

/-- C9: for a non-null array of int32 values and an in-bounds positive
length whose true element sum overflows int32, sumArray returns the sum
reduced mod 2^32 reinterpreted as signed — and hence not the true sum
(no overflow check or saturation). -/
theorem C9_sumArray_wrap_overflow (l : List Int) (n : Int)
    (_hall : ∀ x ∈ l, in32 x) (h0 : 0 < n) (_hn : n ≤ (l.length : Int))
    (hov : ¬ in32 ((l.take n.toNat).sum)) :
    native_sum_array (some l) n
      = reinterpretSigned ((l.take n.toNat).sum % 2 ^ 32)
    ∧ native_sum_array (some l) n ≠ (l.take n.toNat).sum := by
  have hne : ¬ n ≤ 0 := by omega
  have hval : native_sum_array (some l) n
      = toInt32 ((l.take n.toNat).sum) := by
    simp only [native_sum_array, if_neg hne]
    exact sum_wrap (l.take n.toNat)
  constructor
  · rw [hval, toInt32_eq_reinterpret]
  · intro heq
    apply hov
    rw [← heq, hval]
    exact toInt32_in32 _

/-- C9 witness: [INT32_MAX, 1] with length 2 overflows and wraps to
-2^31. -/
theorem C9_sumArray_wrap_overflow_witness :
    ¬ in32 ((([2147483647, 1] : List Int).take (2 : Int).toNat).sum)
    ∧ (native_sum_array (some [2147483647, 1]) 2
        = reinterpretSigned
            ((([2147483647, 1] : List Int).take (2 : Int).toNat).sum % 2 ^ 32)
      ∧ native_sum_array (some [2147483647, 1]) 2
          ≠ (([2147483647, 1] : List Int).take (2 : Int).toNat).sum) :=
  ⟨by decide,
   C9_sumArray_wrap_overflow [2147483647, 1] 2
     (by decide) (by decide) (by decide) (by decide)⟩

/-- C6 counterexample: for a 2^31-byte string the `(int32_t)strlen(str)`
cast wraps, so stringLength does not equal the byte length. -/
theorem C6_stringLength_cex :
    native_string_length (some (List.replicate (2 ^ 31) 65))
      ≠ ((List.replicate (2 ^ 31) (65 : Nat)).length : Int) := by
  simp only [native_string_length, List.length_replicate]
  unfold toInt32
  norm_num

/-- C6 (amended): stringLength(NULL) = 0; for a C string of byte length
below 2^31 stringLength is exactly the byte length; in general it is the
byte length reduced mod 2^32 and reinterpreted as a signed 32-bit
integer (the int32 cast of strlen). -/
theorem C6_stringLength_amended :
    native_string_length none = 0
    ∧ (∀ s : List Nat, CStrOk s → (s.length : Int) < 2 ^ 31 →
        native_string_length (some s) = (s.length : Int))
    ∧ (∀ s : List Nat,
        native_string_length (some s)
          = reinterpretSigned ((s.length : Int) % 2 ^ 32)) := by
  refine ⟨rfl, ?_, ?_⟩
  · intro s hok hlt
    show toInt32 s.length = (s.length : Int)
    refine toInt32_eq_self _ ⟨?_, hlt⟩
    omega
  · intro s
    exact toInt32_eq_reinterpret _

/-- C6 witness: the in-range case applied at the two-byte string "Hi". -/
theorem C6_stringLength_amended_witness :
    CStrOk [72, 105]
    ∧ (([72, 105] : List Nat).length : Int) < 2 ^ 31
    ∧ native_string_length (some [72, 105])
        = (([72, 105] : List Nat).length : Int) :=
  ⟨by decide, by decide,
   C6_stringLength_amended.2.1 [72, 105] (by decide) (by decide)⟩

/-- C10 counterexample: for a name of 2^31 - 8 bytes the greeting has
2^31 bytes, so stringLength of the greeting wraps to -2^31 while
stringLength(name) + 8 is 2^31. -/
theorem C10_greeting_length_cex :
    native_string_length
        (native_get_greeting (some (List.replicate 2147483640 65)) true)
      ≠ native_string_length (some (List.replicate 2147483640 65)) + 8 := by
  show toInt32 ((helloBytes ++ List.replicate 2147483640 (65 : Nat)
        ++ exclBytes).length : Int)
      ≠ toInt32 ((List.replicate 2147483640 (65 : Nat)).length : Int) + 8
  have h7 : helloBytes.length = 7 := rfl
  have hx : exclBytes.length = 1 := rfl
  have hlen : (helloBytes ++ List.replicate 2147483640 (65 : Nat)
      ++ exclBytes).length = 2147483648 := by
    rw [List.length_append, List.length_append, List.length_replicate, h7, hx]
  rw [hlen, List.length_replicate]
  unfold toInt32
  decide

/-- C10 (amended): stringLength(greeting(NULL)) = 13, and for every C
string name whose byte length plus 8 still fits in int32,
stringLength(greeting(name)) = stringLength(name) + 8. -/
theorem C10_greeting_length_amended :
    native_string_length (native_get_greeting none true) = 13
    ∧ (∀ name : List Nat, CStrOk name → (name.length : Int) + 8 < 2 ^ 31 →
        native_string_length (native_get_greeting (some name) true)
          = native_string_length (some name) + 8) := by
  constructor
  · decide
  · intro name hok hlt
    show toInt32 ((helloBytes ++ name ++ exclBytes).length : Int)
        = toInt32 (name.length : Int) + 8
    have hlen : (helloBytes ++ name ++ exclBytes).length
        = name.length + 8 := by
      simp [helloBytes, exclBytes]
    rw [hlen]
    have h1 : toInt32 ((name.length : Int) + 8) = (name.length : Int) + 8 :=
      toInt32_eq_self _ ⟨by omega, by omega⟩
    have h2 : toInt32 (name.length : Int) = (name.length : Int) :=
      toInt32_eq_self _ ⟨by omega, by omega⟩
    push_cast
    rw [h1, h2]

/-- C10 witness: the round trip at the name "Ada". -/
theorem C10_greeting_length_amended_witness :
    CStrOk adaBytes
    ∧ ((adaBytes.length : Int) + 8 < 2 ^ 31)
    ∧ native_string_length (native_get_greeting (some adaBytes) true)
        = native_string_length (some adaBytes) + 8 :=
  ⟨by decide, by decide,
   C10_greeting_length_amended.2 adaBytes (by decide) (by decide)⟩
